import Mathlib

/-!
# Verification of the ORION field-agent runtime (raspiagent-py)

Shallow embedding of the agent runtime in `agent.py` and of the binary-frame
serial parser in `drivers/dfrobot_ult_driver.py`.

Modelling choices, all taken from the source:

* The agent's mutable attributes (`state`, `config`, `driver_instances`,
  `last_read_times`, `global_read_frequency_seconds`) become the fields of the
  `Agent` structure.  Python dicts used as maps become association lists with
  first-entry-wins lookup (`assocLookup`); a dict assignment `d[k] = v` becomes
  consing `(k, v)`.
* The connectivity states are the four strings used by `_set_state`
  (`"BAŞLATILIYOR"`, `"YAPILANDIRILIYOR"`, `"ÇEVRİMİÇİ"`, `"ÇEVRİMDIŞI"`),
  rendered as the ASCII constructors of `AgentState`.
* External effects (HTTP transport, hardware drivers) are abstracted as
  outcome oracles: `fetch_config` receives the transport outcome as a
  `FetchResult` (a 2xx response carrying a decoded `AgentConfig`, or a
  transport/protocol failure, i.e. any `requests.exceptions.RequestException`);
  a sampling pass receives an `Env` giving, per driver name, whether dynamic
  loading plus instantiation succeeds, and per sensor id, the outcome of
  `driver.read` and of the reading submission.
* Driver instance identity is modelled by a fresh natural number drawn from
  `Agent.next_instance` each time `load_driver` actually instantiates a class;
  two calls return "the same instance object" iff they return the same number.
* Times and frequencies are integers (`Int`), so that `now - last_read` is the
  exact difference as in Python.
* Observable actions of a sampling pass are collected as an `Event` trace:
  a `resolve` event for each call of `self.load_driver`, an `invoke` event for
  each call of `driver.read`, and a `submit` event for each call of
  `self.send_reading`.
-/

/-- Association-list lookup, first entry wins: models Python `dict` lookup
(`d[k]` / `d.get(k)` / `k in d`). -/
def assocLookup {α β : Type} [DecidableEq α] : List (α × β) → α → Option β
  | [], _ => none
  | (k, v) :: rest, key => if key = k then some v else assocLookup rest key

/-- The four connectivity states set via `Agent._set_state`:
`BASLATILIYOR` = "BAŞLATILIYOR" (INITIALIZING), `YAPILANDIRILIYOR` =
"YAPILANDIRILIYOR" (CONFIGURING), `CEVRIMICI` = "ÇEVRİMİÇİ" (ONLINE),
`CEVRIMDISI` = "ÇEVRİMDIŞI" (OFFLINE). -/
inductive AgentState where
  | BASLATILIYOR
  | YAPILANDIRILIYOR
  | CEVRIMICI
  | CEVRIMDISI
deriving DecidableEq

/-- One sensor entry of the server-provided configuration, with the fields the
runtime reads: `id`, `name`, `interface`, `is_active`, `read_frequency`
(absent key modelled as `none`; `sensor_config.get('read_frequency', 300)`),
and `parser_config['driver']` as `driver`.  The driver-specific `config`
payload is not inspected by the runtime and is omitted. -/
structure SensorConfig where
  id : Nat
  name : String
  interface : String
  is_active : Bool
  read_frequency : Option Int
  driver : String
deriving DecidableEq

/-- The decoded body of a successful `GET /api/config/<device_id>` response:
`sensors`, `cameras` (only their count/ids matter to the runtime outside of
photo capture), and the optional `global_read_frequency_seconds`
(`self.config.get('global_read_frequency_seconds', 0)`). -/
structure AgentConfig where
  sensors : List SensorConfig
  cameras : List Nat
  global_read_frequency_seconds : Option Int
deriving DecidableEq

/-- The mutable attributes of the `Agent` class.  `driver_instances` maps a
driver name to the identity of its live instance; `next_instance` supplies
fresh instance identities.  `last_read_times` maps a sensor id to the time its
last read attempt began. -/
structure Agent where
  state : AgentState
  config : Option AgentConfig
  driver_instances : List (String × Nat)
  next_instance : Nat
  last_read_times : List (Nat × Int)
  global_read_frequency_seconds : Int
deriving DecidableEq

/-- Outcome of the configuration-fetch transport call: a 2xx response with a
decoded body, or any `requests.exceptions.RequestException` (connection error,
timeout, non-2xx via `raise_for_status`, undecodable JSON body). -/
inductive FetchResult where
  | success (c : AgentConfig)
  | failure
deriving DecidableEq

/-- `Agent.fetch_config` (agent.py lines 83-95).  The method transiently sets
state `YAPILANDIRILIYOR`, performs the request, and on success replaces
`self.config` wholesale, re-derives `global_read_frequency_seconds` (defaulting
to 0) and sets state `ÇEVRİMİÇİ`; the `except` clause catches every
`RequestException`, sets state `ÇEVRİMDIŞI` and returns normally, leaving
`self.config` and every other attribute untouched.  Totality of this function
models that the method never raises to its caller. -/
def fetch_config (a : Agent) (r : FetchResult) : Agent :=
  match r with
  | FetchResult.success c =>
    { a with state := AgentState.CEVRIMICI, config := some c,
             global_read_frequency_seconds := c.global_read_frequency_seconds.getD 0 }
  | FetchResult.failure => { a with state := AgentState.CEVRIMDISI }

/-- `Agent.get_effective_frequency` (agent.py lines 97-98). -/
def get_effective_frequency (a : Agent) (s : SensorConfig) : Int :=
  if a.global_read_frequency_seconds > 0 then a.global_read_frequency_seconds
  else s.read_frequency.getD 300

/-- `Agent.load_driver` (agent.py lines 132-150).  A cache hit returns the
cached instance unchanged.  Otherwise the dynamic file load, class lookup and
zero-argument instantiation either succeed (abstracted by the `loadOk` oracle),
caching and returning a fresh instance, or raise, in which case the `except`
clause returns `None` with the cache untouched. -/
def load_driver (a : Agent) (loadOk : String → Bool) (name : String) :
    Option Nat × Agent :=
  match assocLookup a.driver_instances name with
  | some inst => (some inst, a)
  | none =>
    if loadOk name then
      (some a.next_instance,
       { a with driver_instances := (name, a.next_instance) :: a.driver_instances,
                next_instance := a.next_instance + 1 })
    else (none, a)

/-- `Agent.send_reading` (agent.py lines 152-159): a failed POST (any
`RequestException`, including non-2xx via `raise_for_status`) sets state
`ÇEVRİMDIŞI`; a successful POST changes nothing. -/
def send_reading (a : Agent) (ok : Bool) : Agent :=
  if ok then a else { a with state := AgentState.CEVRIMDISI }

/-- Outcome of one `driver.read(config)` call: a structured reading (its
payload abstracted as an integer), `None`, or a raised exception. -/
inductive ReadOutcome where
  | value (v : Int)
  | empty
  | err
deriving DecidableEq

/-- Oracle for the external world during one sampling pass: whether loading a
given driver name succeeds, what `driver.read` returns for a given sensor id,
and whether submitting that sensor's reading succeeds. -/
structure Env where
  loadOk : String → Bool
  readOutcome : Nat → ReadOutcome
  sendOk : Nat → Bool

/-- Observable actions of a sampling pass, each tagged with the sensor on whose
behalf it happens: `resolve` = a call of `self.load_driver`, `invoke` = a call
of `driver.read`, `submit` = a call of `self.send_reading`. -/
inductive Event where
  | resolve (sid : Nat) (driver : String)
  | invoke (sid : Nat) (driver : String)
  | submit (sid : Nat)
deriving DecidableEq

/-- The sensor on whose behalf an event happened. -/
def Event.sensorId : Event → Nat
  | Event.resolve i _ => i
  | Event.invoke i _ => i
  | Event.submit i => i

/-- The body of the `try` block of `Agent.process_sensors` after `load_driver`
returned (agent.py lines 116-128), applied to the post-`load_driver` agent
`a2`: on failed resolution, log and `continue`; otherwise call `driver.read`;
a non-`None` reading is submitted via `send_reading`, a `None` reading logs a
warning, and a raised exception is caught by the per-sensor `except`. -/
def attempt_read (env : Env) (a2 : Agent) (s : SensorConfig) (inst : Option Nat) :
    Agent × List Event :=
  match inst with
  | none => (a2, [Event.resolve s.id s.driver])
  | some _ =>
    match env.readOutcome s.id with
    | ReadOutcome.value _ =>
      (send_reading a2 (env.sendOk s.id),
       [Event.resolve s.id s.driver, Event.invoke s.id s.driver, Event.submit s.id])
    | ReadOutcome.empty =>
      (a2, [Event.resolve s.id s.driver, Event.invoke s.id s.driver])
    | ReadOutcome.err =>
      (a2, [Event.resolve s.id s.driver, Event.invoke s.id s.driver])

/-- The loop body of `Agent.process_sensors` for one candidate sensor
(agent.py lines 107-130): if `now - last_read >= read_frequency`, record
`last_read_times[id] = now` first, then resolve the driver and attempt the
read; otherwise do nothing. -/
def process_one (env : Env) (now : Int) (a : Agent) (s : SensorConfig) :
    Agent × List Event :=
  if now - (assocLookup a.last_read_times s.id).getD 0 ≥ get_effective_frequency a s then
    let a1 : Agent := { a with last_read_times := (s.id, now) :: a.last_read_times }
    let r := load_driver a1 env.loadOk s.driver
    attempt_read env r.2 s r.1
  else (a, [])

/-- The `for sensor_config in active_sensors` loop of `Agent.process_sensors`,
threading the agent state and concatenating the event traces in order. -/
def process_list (env : Env) (now : Int) : Agent → List SensorConfig → Agent × List Event
  | a, [] => (a, [])
  | a, s :: rest =>
    let p := process_one env now a s
    let q := process_list env now p.1 rest
    (q.1, p.2 ++ q.2)

/-- `Agent.process_sensors` (agent.py lines 100-130): a no-op unless the state
is `ÇEVRİMİÇİ` and a configuration is present; otherwise iterates over the
sensors filtered to `is_active` and `interface != 'virtual'`. -/
def process_sensors (env : Env) (now : Int) (a : Agent) : Agent × List Event :=
  match a.config with
  | none => (a, [])
  | some cfg =>
    if a.state = AgentState.CEVRIMICI then
      process_list env now a
        (cfg.sensors.filter (fun s => s.is_active && !(s.interface == "virtual")))
    else (a, [])

/-- One scheduled activity of the main loop that touches the connectivity
state: a configuration fetch with its transport outcome, or a sensor-sampling
pass at a given time with its hardware/transport oracle.  (Command polling
never writes the connectivity state and is modelled separately by
`execute_command`.) -/
inductive AgentOp where
  | opFetch (r : FetchResult)
  | opPass (env : Env) (now : Int)

/-- Whether an operation is a successful configuration fetch. -/
def opIsSuccessFetch : AgentOp → Bool
  | AgentOp.opFetch (FetchResult.success _) => true
  | _ => false

/-- Apply one scheduled activity to the agent, returning the new agent and the
events of the activity. -/
def applyOp (a : Agent) : AgentOp → Agent × List Event
  | AgentOp.opFetch r => (fetch_config a r, [])
  | AgentOp.opPass env now => process_sensors env now a

/-- Run a sequence of scheduled activities, as the main loop does, collecting
all events in order. -/
def runOps : Agent → List AgentOp → Agent × List Event
  | a, [] => (a, [])
  | a, op :: rest =>
    let p := applyOp a op
    let q := runOps p.1 rest
    (q.1, p.2 ++ q.2)

/-- The frame-scanning loop of `DfrobotUltDriver.read`
(drivers/dfrobot_ult_driver.py lines 27-40), applied to the accumulated byte
buffer: while at least 4 bytes remain, a buffer headed by the 0xFF sentinel
whose checksum `sum(buffer[0:3]) & 0xFF` equals the 4th byte yields the
big-endian 16-bit distance `(buffer[1] << 8) | buffer[2]` in millimetres; on a
checksum mismatch, and on a non-sentinel head byte, exactly the leading byte is
popped and the scan repeats.  Exhausting the buffer models the 3-second
timeout returning `None`. -/
def frameScan : List Nat → Option Nat
  | b0 :: b1 :: b2 :: b3 :: rest =>
    if b0 = 0xFF then
      if (b0 + b1 + b2) % 256 = b3 then some ((b1 <<< 8) ||| b2)
      else frameScan (b1 :: b2 :: b3 :: rest)
    else frameScan (b1 :: b2 :: b3 :: rest)
  | _ => none

/-- The value returned by `DfrobotUltDriver.read` on a given byte stream:
`round(distance_mm / 10.0, 1)` centimetres.  Since `distance_mm` is an
integer, `distance_mm / 10` is an exact multiple of 0.1 and rounding to one
decimal is the identity, so the value is the exact rational `mm / 10`. -/
def dfrobotValue (bytes : List Nat) : Option ℚ :=
  (frameScan bytes).map (fun mm => (mm : ℚ) / 10)

/-- A remote command as consumed by `Agent.execute_command`: its id and its
`command_type` string.  (Payload fields are only read inside the dispatched
actions, abstracted below.) -/
structure Command where
  id : Nat
  command_type : String
deriving DecidableEq

/-- Outcome of a dispatched action: a returned boolean, or a raised exception
(either from payload key lookup or from the action body). -/
inductive ExecOutcome where
  | ret (b : Bool)
  | exn
deriving DecidableEq

/-- Oracle for the two dispatched actions of `execute_command`:
`capture_image` returns a boolean or raises; the `ANALYZE_SNOW_DEPTH` branch
(whose stub returns `True`, but whose payload key lookups may raise) is
likewise abstracted as an outcome. -/
structure CmdEnv where
  captureOutcome : ExecOutcome
  analyzeOutcome : ExecOutcome

/-- `Agent.execute_command` (agent.py lines 176-188), returning the list of
status-report calls `(command id, status)` made via `update_command_status`.
`success` starts `False`; the two recognised `command_type` values dispatch and
overwrite it with the action's boolean result; an unrecognised `command_type`
runs no action and leaves `success = False`; a raised exception during
dispatch is caught and reported as `'failed'`.  `update_command_status` itself
catches every `RequestException` and never raises, so exactly the one report
of the taken branch is emitted. -/
def execute_command (env : CmdEnv) (cmd : Command) : List (Nat × String) :=
  if cmd.command_type = "CAPTURE_IMAGE" then
    match env.captureOutcome with
    | ExecOutcome.ret b => [(cmd.id, if b then "completed" else "failed")]
    | ExecOutcome.exn => [(cmd.id, "failed")]
  else if cmd.command_type = "ANALYZE_SNOW_DEPTH" then
    match env.analyzeOutcome with
    | ExecOutcome.ret b => [(cmd.id, if b then "completed" else "failed")]
    | ExecOutcome.exn => [(cmd.id, "failed")]
  else
    [(cmd.id, "failed")]

/-! ## Concrete fixtures used to instantiate the theorems -/

/-- A physical, active lidar sensor with its own 10-second frequency. -/
def sensorA : SensorConfig :=
  { id := 1, name := "lidar", interface := "serial", is_active := true,
    read_frequency := some 10, driver := "dfrobot_ult" }

/-- An active but virtual sensor (id 2), which a sampling pass must skip. -/
def sensorB : SensorConfig :=
  { id := 2, name := "virt", interface := "virtual", is_active := true,
    read_frequency := some 10, driver := "dfrobot_ult" }

/-- A configuration holding the two fixture sensors and no global override. -/
def cfgW : AgentConfig :=
  { sensors := [sensorA, sensorB], cameras := [],
    global_read_frequency_seconds := none }

/-- An all-successful external world: every driver loads, every read returns a
value, every submission succeeds. -/
def envW : Env :=
  { loadOk := fun _ => true, readOutcome := fun _ => ReadOutcome.value 5,
    sendOk := fun _ => true }

/-- An online agent holding `cfgW`, with empty caches and timestamp map. -/
def agentW : Agent :=
  { state := AgentState.CEVRIMICI, config := some cfgW, driver_instances := [],
    next_instance := 0, last_read_times := [], global_read_frequency_seconds := 0 }

/-! ## Structural helper lemmas -/

lemma load_driver_snd_last (a : Agent) (L : String → Bool) (n : String) :
    (load_driver a L n).2.last_read_times = a.last_read_times := by
  unfold load_driver
  cases assocLookup a.driver_instances n
  · dsimp only
    split <;> rfl
  · rfl

lemma load_driver_snd_global (a : Agent) (L : String → Bool) (n : String) :
    (load_driver a L n).2.global_read_frequency_seconds =
      a.global_read_frequency_seconds := by
  unfold load_driver
  cases assocLookup a.driver_instances n
  · dsimp only
    split <;> rfl
  · rfl

lemma send_reading_last (a : Agent) (ok : Bool) :
    (send_reading a ok).last_read_times = a.last_read_times := by
  unfold send_reading; split <;> rfl

lemma send_reading_global (a : Agent) (ok : Bool) :
    (send_reading a ok).global_read_frequency_seconds =
      a.global_read_frequency_seconds := by
  unfold send_reading; split <;> rfl

lemma attempt_read_fst_last (env : Env) (a2 : Agent) (s : SensorConfig)
    (inst : Option Nat) :
    (attempt_read env a2 s inst).1.last_read_times = a2.last_read_times := by
  unfold attempt_read
  cases inst
  · rfl
  · cases env.readOutcome s.id <;> simp [send_reading_last]

lemma attempt_read_fst_global (env : Env) (a2 : Agent) (s : SensorConfig)
    (inst : Option Nat) :
    (attempt_read env a2 s inst).1.global_read_frequency_seconds =
      a2.global_read_frequency_seconds := by
  unfold attempt_read
  cases inst
  · rfl
  · cases env.readOutcome s.id <;> simp [send_reading_global]

lemma attempt_read_snd_ne (env : Env) (a2 : Agent) (s : SensorConfig)
    (inst : Option Nat) : (attempt_read env a2 s inst).2 ≠ [] := by
  unfold attempt_read
  cases inst
  · simp
  · cases env.readOutcome s.id <;> simp

lemma attempt_read_snd_sid (env : Env) (a2 : Agent) (s : SensorConfig)
    (inst : Option Nat) :
    ∀ e ∈ (attempt_read env a2 s inst).2, Event.sensorId e = s.id := by
  unfold attempt_read
  cases inst
  · simp [Event.sensorId]
  · cases env.readOutcome s.id <;> simp [Event.sensorId]

lemma process_one_not_due (env : Env) (now : Int) (a : Agent) (s : SensorConfig)
    (h : ¬ now - (assocLookup a.last_read_times s.id).getD 0 ≥
        get_effective_frequency a s) :
    process_one env now a s = (a, []) := by
  unfold process_one
  exact if_neg h

lemma process_one_due_last (env : Env) (now : Int) (a : Agent) (s : SensorConfig)
    (h : now - (assocLookup a.last_read_times s.id).getD 0 ≥
        get_effective_frequency a s) :
    (process_one env now a s).1.last_read_times = (s.id, now) :: a.last_read_times := by
  unfold process_one
  rw [if_pos h]
  dsimp only
  rw [attempt_read_fst_last, load_driver_snd_last]

lemma process_one_due_global (env : Env) (now : Int) (a : Agent) (s : SensorConfig)
    (h : now - (assocLookup a.last_read_times s.id).getD 0 ≥
        get_effective_frequency a s) :
    (process_one env now a s).1.global_read_frequency_seconds =
      a.global_read_frequency_seconds := by
  unfold process_one
  rw [if_pos h]
  dsimp only
  rw [attempt_read_fst_global, load_driver_snd_global]

lemma process_one_events (env : Env) (now : Int) (a : Agent) (s : SensorConfig) :
    ∀ e ∈ (process_one env now a s).2, Event.sensorId e = s.id := by
  by_cases h : now - (assocLookup a.last_read_times s.id).getD 0 ≥
      get_effective_frequency a s
  · unfold process_one
    rw [if_pos h]
    exact attempt_read_snd_sid env _ s _
  · rw [process_one_not_due env now a s h]
    simp

lemma process_list_events (env : Env) (now : Int) :
    ∀ (l : List SensorConfig) (a : Agent), ∀ e ∈ (process_list env now a l).2,
      ∃ s ∈ l, Event.sensorId e = s.id := by
  intro l
  induction l with
  | nil => intro a e he; simp [process_list] at he
  | cons s rest ih =>
    intro a e he
    unfold process_list at he
    rw [List.mem_append] at he
    rcases he with he | he
    · exact ⟨s, List.mem_cons_self s rest, process_one_events env now a s e he⟩
    · obtain ⟨s', hs', hid⟩ := ih (process_one env now a s).1 e he
      exact ⟨s', List.mem_cons_of_mem s hs', hid⟩

lemma process_sensors_not_online (env : Env) (now : Int) (a : Agent)
    (h : a.state ≠ AgentState.CEVRIMICI) :
    process_sensors env now a = (a, []) := by
  unfold process_sensors
  cases a.config
  · rfl
  · exact if_neg h

lemma process_sensors_online (env : Env) (now : Int) (a : Agent)
    (cfg : AgentConfig) (hc : a.config = some cfg)
    (hs : a.state = AgentState.CEVRIMICI) :
    process_sensors env now a =
      process_list env now a
        (cfg.sensors.filter (fun s => s.is_active && !(s.interface == "virtual"))) := by
  unfold process_sensors
  rw [hc]
  exact if_pos hs

lemma fetch_config_failure_state (a : Agent) :
    (fetch_config a FetchResult.failure).state = AgentState.CEVRIMDISI := rfl

lemma runOps_offline (ops : List AgentOp) :
    ∀ a : Agent, a.state = AgentState.CEVRIMDISI →
      ops.all (fun op => !(opIsSuccessFetch op)) = true →
      (runOps a ops).2 = [] ∧ (runOps a ops).1.state = AgentState.CEVRIMDISI := by
  induction ops with
  | nil => intro a ha _; exact ⟨rfl, ha⟩
  | cons op rest ih =>
    intro a ha hall
    rw [List.all_cons, Bool.and_eq_true] at hall
    have hstep : (applyOp a op).2 = [] ∧ (applyOp a op).1.state = AgentState.CEVRIMDISI := by
      cases op with
      | opFetch r =>
        cases r with
        | success c => simp [opIsSuccessFetch] at hall
        | failure => exact ⟨rfl, fetch_config_failure_state a⟩
      | opPass env now =>
        have hne : a.state ≠ AgentState.CEVRIMICI := by
          rw [ha]; intro hc; exact AgentState.noConfusion hc
        rw [applyOp, process_sensors_not_online env now a hne]
        exact ⟨rfl, ha⟩
    have hrest := ih (applyOp a op).1 hstep.2 hall.2
    unfold runOps
    refine ⟨?_, hrest.2⟩
    dsimp only
    rw [hstep.1, hrest.1]
    rfl

lemma assocLookup_cons_self {α β : Type} [DecidableEq α] (k : α) (v : β)
    (l : List (α × β)) : assocLookup ((k, v) :: l) k = some v := by
  simp [assocLookup]

/-! ## The claims -/

/-- Claim C1: the configuration-fetch operation never raises to its caller
(`fetch_config` is a total function of the transport outcome), and on any
failure it transitions the state to `ÇEVRİMDIŞI` (OFFLINE) while leaving the
previously-loaded configuration — in particular its sensors list — unchanged. -/
theorem claim_C1 (a : Agent) :
    (fetch_config a FetchResult.failure).state = AgentState.CEVRIMDISI ∧
    (fetch_config a FetchResult.failure).config = a.config ∧
    Option.map AgentConfig.sensors (fetch_config a FetchResult.failure).config =
      Option.map AgentConfig.sensors a.config :=
  ⟨rfl, rfl, rfl⟩

/-- Claim C3: on the byte stream `[0x01, 0xFF, 0x01, 0x2C, 0x2C]` the
binary-frame parser skips the leading garbage byte, accepts the frame whose
checksum matches, decodes the big-endian distance 0x012C = 300 mm, and returns
30.0 cm; and in general a sentinel-headed window whose checksum mismatches is
resynchronised by discarding exactly one leading byte and rescanning. -/
theorem claim_C3 :
    frameScan [0x01, 0xFF, 0x01, 0x2C, 0x2C] = some 300 ∧
    dfrobotValue [0x01, 0xFF, 0x01, 0x2C, 0x2C] = some 30 ∧
    ∀ (b0 b1 b2 b3 : Nat) (rest : List Nat), b0 = 0xFF →
      (b0 + b1 + b2) % 256 ≠ b3 →
      frameScan (b0 :: b1 :: b2 :: b3 :: rest) = frameScan (b1 :: b2 :: b3 :: rest) := by
  have h300 : frameScan [0x01, 0xFF, 0x01, 0x2C, 0x2C] = some 300 := by decide
  refine ⟨h300, ?_, ?_⟩
  · unfold dfrobotValue
    rw [h300]
    norm_num
  · intro b0 b1 b2 b3 rest h0 hne
    subst h0
    simp [frameScan, hne]

/-- Witness for claim C3 at a concrete input: the window `[0xFF, 0, 0, 0]` has
checksum 0xFF ≠ 0, so the parser drops its head byte and rescans. -/
theorem claim_C3_witness : frameScan [0xFF, 0, 0, 0] = frameScan [0, 0, 0] :=
  claim_C3.2.2 0xFF 0 0 0 [] rfl (by decide)

/-- Claim C4: the effective read frequency is the global override when it is
positive, otherwise the sensor's own `read_frequency`, otherwise 300; and the
per-sensor loop body attempts a read (resolves the driver, producing at least
one event) iff the elapsed time since the sensor's last recorded attempt is at
least this effective frequency. -/
theorem claim_C4 (env : Env) (now : Int) (a : Agent) (s : SensorConfig) :
    (get_effective_frequency a s =
      if a.global_read_frequency_seconds > 0 then a.global_read_frequency_seconds
      else s.read_frequency.getD 300) ∧
    ((process_one env now a s).2 ≠ [] ↔
      now - (assocLookup a.last_read_times s.id).getD 0 ≥
        get_effective_frequency a s) := by
  refine ⟨rfl, ?_, ?_⟩
  · intro hne
    by_contra hnd
    rw [process_one_not_due env now a s hnd] at hne
    exact hne rfl
  · intro h
    unfold process_one
    rw [if_pos h]
    exact attempt_read_snd_ne env _ s _

/-- Claim C6: a repeated driver-registry call for a name that previously
resolved returns the same instance, with no state change (so each driver name
is instantiated at most once per process lifetime), whatever the outcome of
dynamic loading would now be. -/
theorem claim_C6 (a : Agent) (L : String → Bool) (name : String) (i : Nat)
    (a' : Agent) (h : load_driver a L name = (some i, a')) :
    ∀ L2 : String → Bool, load_driver a' L2 name = (some i, a') := by
  intro L2
  unfold load_driver at h
  cases hc : assocLookup a.driver_instances name with
  | some j =>
    rw [hc] at h
    injection h with h1 h2
    injection h1 with h1
    subst h1
    subst h2
    simp [load_driver, hc]
  | none =>
    rw [hc] at h
    by_cases hL : L name = true
    · rw [if_pos hL] at h
      injection h with h1 h2
      injection h1 with h1
      subst h1
      subst h2
      simp [load_driver, assocLookup]
    · rw [if_neg hL] at h
      injection h with h1 h2
      exact Option.noConfusion h1

/-- Witness for claim C6: after the first successful load of
`"dfrobot_ult"` into the fixture agent, a second call — even with a
now-failing loader — returns the same instance 0 and leaves the agent
unchanged. -/
theorem claim_C6_witness :
    load_driver (load_driver agentW (fun _ => true) "dfrobot_ult").2
      (fun _ => false) "dfrobot_ult" =
      (some 0, (load_driver agentW (fun _ => true) "dfrobot_ult").2) :=
  claim_C6 agentW (fun _ => true) "dfrobot_ult" 0
    (load_driver agentW (fun _ => true) "dfrobot_ult").2 rfl (fun _ => false)

/-- Claim C5: once a read attempt is due, `last_read_times[id]` is set to the
current time no matter what the external world does afterwards (the update
precedes driver resolution: `load_driver` already receives the updated agent,
so the timestamp is `now` for every load/read/submission outcome); and a
second evaluation of the loop body within the frequency window after the
attempt does nothing — no driver resolution, no state change. -/
theorem claim_C5 (env : Env) (now : Int) (a : Agent) (s : SensorConfig)
    (h : now - (assocLookup a.last_read_times s.id).getD 0 ≥
        get_effective_frequency a s) :
    assocLookup (process_one env now a s).1.last_read_times s.id = some now ∧
    ∀ (env2 : Env) (now2 : Int),
      now2 - now < get_effective_frequency (process_one env now a s).1 s →
      process_one env2 now2 (process_one env now a s).1 s =
        ((process_one env now a s).1, []) := by
  have hl := process_one_due_last env now a s h
  constructor
  · rw [hl]
    exact assocLookup_cons_self s.id now a.last_read_times
  · intro env2 now2 hlt
    apply process_one_not_due
    rw [hl, assocLookup_cons_self s.id now a.last_read_times]
    exact not_le.mpr hlt

/-- Witness for claim C5: sensor 1 of the fixture agent is due at time 1000;
after the attempt its timestamp is 1000, and a re-evaluation at time 1005
(within the 10-second window) is a no-op. -/
theorem claim_C5_witness :
    assocLookup (process_one envW 1000 agentW sensorA).1.last_read_times
      sensorA.id = some 1000 ∧
    process_one envW 1005 (process_one envW 1000 agentW sensorA).1 sensorA =
      ((process_one envW 1000 agentW sensorA).1, []) :=
  ⟨(claim_C5 envW 1000 agentW sensorA (by decide)).1,
   (claim_C5 envW 1000 agentW sensorA (by decide)).2 envW 1005 (by decide)⟩

/-- Claim C7: a sensor whose `is_active` flag is false or whose interface is
`'virtual'` never has its driver resolved or invoked (and nothing submitted)
on its behalf by a sampling pass, for every environment, time, and agent state
whose configured sensor ids are unique. -/
theorem claim_C7 (env : Env) (now : Int) (a : Agent) (cfg : AgentConfig)
    (s : SensorConfig) (hc : a.config = some cfg)
    (hbad : s.is_active = false ∨ s.interface = "virtual")
    (huniq : ∀ s' ∈ cfg.sensors, s'.id = s.id → s' = s) :
    ∀ e ∈ (process_sensors env now a).2, Event.sensorId e ≠ s.id := by
  intro e he hid
  by_cases hs : a.state = AgentState.CEVRIMICI
  · rw [process_sensors_online env now a cfg hc hs] at he
    obtain ⟨s', hs', hid'⟩ := process_list_events env now _ a e he
    rw [List.mem_filter] at hs'
    have hsid : s'.id = s.id := by rw [← hid', hid]
    have heq : s' = s := huniq s' hs'.1 hsid
    have hfil := hs'.2
    rw [heq] at hfil
    simp only [Bool.and_eq_true, Bool.not_eq_true', beq_eq_false_iff_ne] at hfil
    rcases hbad with hb | hb
    · rw [hfil.1] at hb
      exact Bool.noConfusion hb
    · exact hfil.2 hb
  · rw [process_sensors_not_online env now a hs] at he
    simp at he

/-- Witness for claim C7: in a pass over the fixture agent at time 1000, the
driver-resolution event that does occur belongs to sensor 1, not to the
virtual sensor 2. -/
theorem claim_C7_witness :
    Event.sensorId (Event.resolve 1 "dfrobot_ult") ≠ 2 :=
  claim_C7 envW 1000 agentW cfgW sensorB rfl (Or.inr rfl) (by decide)
    (Event.resolve 1 "dfrobot_ult") (by decide)

/-- Claim C2: a failed reading submission moves an `ÇEVRİMİÇİ` (ONLINE) agent
to `ÇEVRİMDIŞI` (OFFLINE); from there, any sequence of sampling passes and
failed configuration fetches produces no events at all (no driver resolved or
invoked, nothing submitted) and stays OFFLINE, while a successful
configuration fetch returns any agent to ONLINE. -/
theorem claim_C2 (a : Agent) (_h : a.state = AgentState.CEVRIMICI) :
    (send_reading a false).state = AgentState.CEVRIMDISI ∧
    (∀ ops : List AgentOp, ops.all (fun op => !(opIsSuccessFetch op)) = true →
      (runOps (send_reading a false) ops).2 = [] ∧
      (runOps (send_reading a false) ops).1.state = AgentState.CEVRIMDISI) ∧
    (∀ (b : Agent) (c : AgentConfig),
      (fetch_config b (FetchResult.success c)).state = AgentState.CEVRIMICI) := by
  have hoff : (send_reading a false).state = AgentState.CEVRIMDISI := by
    unfold send_reading
    rfl
  exact ⟨hoff, fun ops hall => runOps_offline ops _ hoff hall, fun b c => rfl⟩

/-- Witness for claim C2: after a failed submission the fixture agent is
OFFLINE, and a run of pass / failed-fetch / pass produces no events. -/
theorem claim_C2_witness :
    (send_reading agentW false).state = AgentState.CEVRIMDISI ∧
    (runOps (send_reading agentW false)
      [AgentOp.opPass envW 50, AgentOp.opFetch FetchResult.failure,
       AgentOp.opPass envW 60]).2 = [] :=
  ⟨(claim_C2 agentW rfl).1,
   ((claim_C2 agentW rfl).2.1
     [AgentOp.opPass envW 50, AgentOp.opFetch FetchResult.failure,
      AgentOp.opPass envW 60] rfl).1⟩

/-- Claim C8: every command execution — for any `command_type`, including
unknown kinds, and for any dispatched-action outcome, including a raised
exception — produces exactly one status-report call for that command id, and
its status is `'completed'` or `'failed'`. -/
theorem claim_C8 (env : CmdEnv) (cmd : Command) :
    ∃ st : String, execute_command env cmd = [(cmd.id, st)] ∧
      (st = "completed" ∨ st = "failed") := by
  unfold execute_command
  by_cases h1 : cmd.command_type = "CAPTURE_IMAGE"
  · rw [if_pos h1]
    cases env.captureOutcome with
    | ret b =>
      cases b
      · exact ⟨"failed", rfl, Or.inr rfl⟩
      · exact ⟨"completed", rfl, Or.inl rfl⟩
    | exn => exact ⟨"failed", rfl, Or.inr rfl⟩
  · rw [if_neg h1]
    by_cases h2 : cmd.command_type = "ANALYZE_SNOW_DEPTH"
    · rw [if_pos h2]
      cases env.analyzeOutcome with
      | ret b =>
        cases b
        · exact ⟨"failed", rfl, Or.inr rfl⟩
        · exact ⟨"completed", rfl, Or.inl rfl⟩
      | exn => exact ⟨"failed", rfl, Or.inr rfl⟩
    · rw [if_neg h2]
      exact ⟨"failed", rfl, Or.inr rfl⟩

/-- Claim C9: a command whose `command_type` matches neither `CAPTURE_IMAGE`
nor `ANALYZE_SNOW_DEPTH` runs no action, so the `success` flag keeps its
initial `False` and the single reported status is `'failed'`, for every
dispatched-action oracle. -/
theorem claim_C9 (env : CmdEnv) (cmd : Command)
    (h1 : cmd.command_type ≠ "CAPTURE_IMAGE")
    (h2 : cmd.command_type ≠ "ANALYZE_SNOW_DEPTH") :
    execute_command env cmd = [(cmd.id, "failed")] := by
  unfold execute_command
  rw [if_neg h1, if_neg h2]

/-- Witness for claim C9: the unknown command type `"REBOOT"` is reported
`'failed'`. -/
theorem claim_C9_witness :
    execute_command
      { captureOutcome := ExecOutcome.exn, analyzeOutcome := ExecOutcome.exn }
      { id := 7, command_type := "REBOOT" } = [(7, "failed")] :=
  claim_C9
    { captureOutcome := ExecOutcome.exn, analyzeOutcome := ExecOutcome.exn }
    { id := 7, command_type := "REBOOT" } (by decide) (by decide)

/-- Claim C10: when a driver name is not cached and loading it fails, the
registry returns `None` and leaves the agent — in particular the instance
cache — completely unchanged, so the next resolution of the same name with a
now-working loader instantiates the driver. -/
theorem claim_C10 (a : Agent) (L : String → Bool) (name : String)
    (h1 : assocLookup a.driver_instances name = none)
    (h2 : L name = false) :
    load_driver a L name = (none, a) ∧
    ∀ L2 : String → Bool, L2 name = true →
      (load_driver a L2 name).1 = some a.next_instance := by
  constructor
  · simp [load_driver, h1, h2]
  · intro L2 hL2
    simp [load_driver, h1, hL2]

/-- Witness for claim C10: loading `"dfrobot_ult"` into the fixture agent with
a failing loader returns `None` and changes nothing; retrying with a working
loader instantiates instance 0. -/
theorem claim_C10_witness :
    load_driver agentW (fun _ => false) "dfrobot_ult" = (none, agentW) ∧
    (load_driver agentW (fun _ => true) "dfrobot_ult").1 =
      some agentW.next_instance :=
  ⟨(claim_C10 agentW (fun _ => false) "dfrobot_ult" rfl rfl).1,
   (claim_C10 agentW (fun _ => false) "dfrobot_ult" rfl rfl).2
     (fun _ => true) rfl⟩
